import Mathlib

/-!
# Formal model of `CLI.py` (network diagnostics toolkit)

Every function of the script is embedded as a pure Lean function.  External
effects (DNS resolution, subprocess execution, TCP connect attempts, the
platform name, PATH lookups, interactive input) are supplied as oracle
parameters describing the outcome the runtime would deliver, and the embedded
code computes exactly what the Python code computes from those outcomes.
-/

namespace CLI

/-- Python `str.lower()` restricted to ASCII case mapping (the inputs of
interest are ASCII tool output). -/
def pyLower (s : String) : String := ⟨s.data.map Char.toLower⟩

/-- Bool test that `needle` occurs as a contiguous block inside `hay`. -/
def isInfixChars (needle : List Char) : List Char → Bool
  | [] => needle.isEmpty
  | c :: rest => needle.isPrefixOf (c :: rest) || isInfixChars needle rest

/-- Python substring test `needle in hay`. -/
def containsStr (hay needle : String) : Bool := isInfixChars needle.data hay.data

/-- Python `str.strip()`: whitespace removed from both ends. -/
def pyStrip (s : String) : String :=
  ⟨((s.data.dropWhile Char.isWhitespace).reverse.dropWhile Char.isWhitespace).reverse⟩

/-- Python `str.splitlines()` restricted to `"\n"` line boundaries: each
newline terminates a line, and a trailing newline does not produce a final
empty line.  (Python also splits on other boundary characters such as
carriage return; the outputs modelled here use newline only.)  First argument
is the remaining characters, second the reversed current line. -/
def splitlinesAux : List Char → List Char → List String
  | [], acc => if acc.isEmpty then [] else [⟨acc.reverse⟩]
  | c :: rest, acc =>
    if c = '\n' then (⟨acc.reverse⟩ : String) :: splitlinesAux rest []
    else splitlinesAux rest (c :: acc)

/-- Python `output.splitlines()`. -/
def splitlines (s : String) : List String := splitlinesAux s.data []

/-- `COMMON_PORTS = [22, 80, 443]` from `CLI.py`. -/
def COMMON_PORTS : List Nat := [22, 80, 443]

/-- `PING_COUNT = 4` from `CLI.py`. -/
def PING_COUNT : Nat := 4

/-- The hard wall-clock timeout passed to `subprocess.run` (`timeout=30`). -/
def COMMAND_TIMEOUT : Nat := 30

/-- Outcome of one `subprocess.run` invocation: either the child process
completed (possibly after nonzero exit) with captured text streams, or the
call raised an exception (`FileNotFoundError`, `PermissionError`,
`subprocess.TimeoutExpired` after `COMMAND_TIMEOUT` units, ...) whose string
rendering is `message`. -/
inductive SubprocessOutcome where
  | completed (returncode : Int) (stdout stderr : String)
  | raised (message : String)
deriving DecidableEq

/-- The f-string `f"Error running command {joined}: {e}"` built by
`run_command`, where `joined` is `" ".join(cmd)`. -/
def errMsg (cmd : List String) (e : String) : String :=
  "Error running command " ++ String.intercalate " " cmd ++ ": " ++ e

/-- `run_command(cmd)` from `CLI.py`: on completion returns the returncode
together with stdout and stderr concatenated in that order and stripped; any
exception is caught and turned into exit code 1 with an explanatory message.
The function is total: no outcome propagates an exception to the caller. -/
def run_command (cmd : List String) (o : SubprocessOutcome) : Int × String :=
  match o with
  | .completed rc out err => (rc, pyStrip (out ++ err))
  | .raised e => (1, errMsg cmd e)

/-- Outcome of `socket.gethostbyname_ex(target)`: either the triple
`(hostname, aliaslist, ipaddrlist)` or a raised exception rendered by
`str(e)`. -/
inductive ResolveOutcome where
  | ok (host : String) (aliaslist : List String) (ipaddrlist : List String)
  | exc (message : String)
deriving DecidableEq

/-- `dns_lookup(target)` from `CLI.py`, as a function of the resolver
outcome.  Success keeps the address list verbatim and takes
`ipaddrlist[0] if ipaddrlist else "N/A"` as primary; failure yields
`(False, "N/A", [str(e)])`. -/
def dns_lookup (o : ResolveOutcome) : Bool × String × List String :=
  match o with
  | .ok _ _ ipaddrlist => (true, ipaddrlist.headD "N/A", ipaddrlist)
  | .exc e => (false, "N/A", [e])

/-- Outcome of the guarded TCP connect attempt
`s.settimeout(CONNECT_TIMEOUT); s.connect_ex((target, port))`.
Per the Python socket documentation, `connect_ex` returns errors from the
C-level `connect` call as an integer error indicator (0 on success) instead
of raising: a refused connection yields `returned ECONNREFUSED` and an
unreachable network yields `returned ENETUNREACH`.  Exceptions from other
problems (for example `socket.gaierror` for an unresolvable host name) are
still raised, as is a raised `socket.timeout`. -/
inductive ConnectOutcome where
  | returned (code : Int)
  | sockTimeout
  | raised (message : String)
deriving DecidableEq

/-- `errno ECONNREFUSED` on Linux. -/
def ECONNREFUSED : Int := 111

/-- `errno ENETUNREACH` on Linux. -/
def ENETUNREACH : Int := 101

/-- The connect outcome for a network-unreachable destination: the C-level
`connect` fails with `ENETUNREACH`, which `connect_ex` returns as an error
indicator rather than raising. -/
def netUnreachable : ConnectOutcome := .returned ENETUNREACH

/-- The per-port status string computed by the body of the loop of
`scan_ports`: indicator 0 means `"open"`, any other indicator `"closed"`,
a raised `socket.timeout` means `"timeout"`, and any other raised exception
produces `f"error ({e})"`. -/
def port_status (o : ConnectOutcome) : String :=
  match o with
  | .returned r => if r == 0 then "open" else "closed"
  | .sockTimeout => "timeout"
  | .raised e => "error (" ++ e ++ ")"

/-- The loop of `scan_ports`: `results = []`, then for each port append
`(port, status)` to `results`. -/
def scan_ports_loop (conn : String → Nat → ConnectOutcome) (target : String) :
    List Nat → List (Nat × String) → List (Nat × String)
  | [], results => results
  | port :: rest, results =>
    scan_ports_loop conn target rest (results ++ [(port, port_status (conn target port))])

/-- `scan_ports(target, ports)` from `CLI.py`, as a function of the
per-(host, port) connect-attempt oracle `conn`. -/
def scan_ports (conn : String → Nat → ConnectOutcome) (target : String)
    (ports : List Nat) : List (Nat × String) :=
  scan_ports_loop conn target ports []

/-- The external world of one run of the script. -/
structure Env where
  /-- `platform.system()`. -/
  osName : String
  /-- `shutil.which`. -/
  which : String → Option String
  /-- `socket.gethostbyname_ex` per target. -/
  resolve : String → ResolveOutcome
  /-- `subprocess.run` outcome per argument vector. -/
  subproc : List String → SubprocessOutcome
  /-- TCP connect-attempt outcome per (host, port). -/
  conn : String → Nat → ConnectOutcome

/-- The argument vector built by `ping_host`: `-n` on Windows-family
platforms (`platform.system().lower().startswith("win")`), `-c` elsewhere. -/
def ping_cmd (osName target : String) : List String :=
  if (pyLower osName).startsWith "win" then
    ["ping", "-n", toString PING_COUNT, target]
  else
    ["ping", "-c", toString PING_COUNT, target]

/-- `ping_host(target)` from `CLI.py`: run the platform ping command and
report `(code == 0, raw output)`. -/
def ping_host (env : Env) (target : String) : Bool × String :=
  let cmd := ping_cmd env.osName target
  let r := run_command cmd (env.subproc cmd)
  (r.1 == 0, r.2)

/-- Python `x or default` on an optional string: a falsy left operand
(`None` or the empty string) falls through to the default. -/
def orDefault (x : Option String) (d : String) : String :=
  match x with
  | some s => if s = "" then d else s
  | none => d

/-- The argument vector built by `traceroute_host`:
`shutil.which("tracert") or "tracert"` on Windows-family platforms,
`shutil.which("traceroute") or "traceroute"` elsewhere. -/
def trace_cmd (env : Env) (target : String) : List String :=
  if (pyLower env.osName).startsWith "win" then
    [orDefault (env.which "tracert") "tracert", target]
  else
    [orDefault (env.which "traceroute") "traceroute", target]

/-- `traceroute_host(target)` from `CLI.py`. -/
def traceroute_host (env : Env) (target : String) : Bool × String :=
  let cmd := trace_cmd env target
  let r := run_command cmd (env.subproc cmd)
  (r.1 == 0, r.2)

/-- The line test of `summarize_ping`:
`"loss" in line.lower() or "Packets:" in line or "statistics" in line`.
Note that only `"loss"` is matched case-insensitively; `"Packets:"` and
`"statistics"` are matched by exact substring search. -/
def ping_marker (line : String) : Bool :=
  containsStr (pyLower line) "loss" || containsStr line "Packets:" ||
    containsStr line "statistics"

/-- The loop of `summarize_ping` over the reversed line list: the first
matching line is stripped and returned (`break`); with no match the initial
`summary_line = ""` survives. -/
def summarize_loop : List String → String
  | [] => ""
  | line :: rest => if ping_marker line then pyStrip line else summarize_loop rest

/-- `summarize_ping(output)` from `CLI.py`:
`return summary_line or "See raw output."`. -/
def summarize_ping (output : String) : String :=
  let s := summarize_loop (splitlines output).reverse
  if s = "" then "See raw output." else s

/-- Where the target string came from: `sys.argv[1]` when a positional
argument is present, otherwise the interactively entered line. -/
inductive InputSource where
  | argv (arg : String)
  | interactive (line : String)
deriving DecidableEq

/-- The target computed by `main`: the argv value is used verbatim, the
interactive line is passed through `.strip()`. -/
def getTarget : InputSource → String
  | .argv a => a
  | .interactive line => pyStrip line

/-- Everything `main` computes for one diagnosed target. -/
structure Report where
  target : String
  dns_ok : Bool
  primary_ip : String
  details : List String
  ping_ok : Bool
  ping_out : String
  ping_summary : String
  trace_ok : Bool
  trace_out : String
  ports_result : List (Nat × String)
deriving DecidableEq

/-- The result of running `main`: either the fatal usage error
(`sys.exit(1)` before any probe) or a completed report; a completed run
falls off the end of `main` and exits with status 0. -/
inductive MainResult where
  | usageError (code : Nat)
  | report (r : Report)
deriving DecidableEq

/-- The process exit status of a `MainResult`. -/
def exitCode : MainResult → Nat
  | .usageError c => c
  | .report _ => 0

/-- `main()` from `CLI.py`: empty target aborts with `sys.exit(1)`;
otherwise DNS lookup, ping, traceroute and the port scan all run, the port
scan against `primary_ip if dns_ok else target`, ping and traceroute
against the original target string. -/
def main (env : Env) (src : InputSource) : MainResult :=
  let target := getTarget src
  if target = "" then .usageError 1
  else
    let d := dns_lookup (env.resolve target)
    let dns_ok := d.1
    let primary_ip := d.2.1
    let details := d.2.2
    let p := ping_host env target
    let t := traceroute_host env target
    let ports_result := scan_ports env.conn (if dns_ok then primary_ip else target) COMMON_PORTS
    .report ⟨target, dns_ok, primary_ip, details, p.1, p.2, summarize_ping p.2,
      t.1, t.2, ports_result⟩

/-- A concrete environment: Linux, nothing on the PATH, DNS failing, every
subprocess launch failing, every connect attempt refused. -/
def envW : Env :=
  ⟨"Linux", fun _ => none, fun _ => .exc "gaierror -2", fun _ => .raised "FileNotFoundError",
    fun _ _ => .returned ECONNREFUSED⟩

/-- A concrete environment: Windows, PATH finding every tool at itself, DNS
resolving to one address, every subprocess succeeding, every connect attempt
accepted. -/
def envW2 : Env :=
  ⟨"Windows", fun s => some s, fun _ => .ok "example.org" [] ["93.184.216.34"],
    fun _ => .completed 0 "4 packets transmitted, 0% packet loss" "",
    fun _ _ => .returned 0⟩

/-! ## Helper lemmas -/

/-- String append acts as list append on the underlying character data. -/
theorem data_append_eq (s t : String) : (s ++ t).data = s.data ++ t.data := rfl

/-- The explanatory message built by `run_command` on a failed launch is
never empty. -/
theorem errMsg_ne_empty (cmd : List String) (e : String) : errMsg cmd e ≠ "" := by
  intro h
  have h2 := congrArg String.data h
  simp only [errMsg, data_append_eq] at h2
  simp at h2

/-- Unrolling the accumulator of the `scan_ports` loop. -/
theorem scan_ports_loop_eq (conn : String → Nat → ConnectOutcome) (target : String)
    (ports : List Nat) (acc : List (Nat × String)) :
    scan_ports_loop conn target ports acc =
      acc ++ ports.map (fun p => (p, port_status (conn target p))) := by
  induction ports generalizing acc with
  | nil => simp [scan_ports_loop]
  | cons p rest ih => simp [scan_ports_loop, ih]

/-- `scan_ports` maps each requested port to its own classification. -/
theorem scan_ports_eq (conn : String → Nat → ConnectOutcome) (target : String)
    (ports : List Nat) :
    scan_ports conn target ports =
      ports.map (fun p => (p, port_status (conn target p))) := by
  simpa using scan_ports_loop_eq conn target ports []

/-- Characterization of the `summarize_ping` loop: either no line matches and
the initial empty string survives, or the list decomposes around the first
matching line, whose stripped text is returned. -/
theorem summarize_loop_spec (ls : List String) :
    ((∀ l ∈ ls, ping_marker l = false) ∧ summarize_loop ls = "") ∨
    (∃ pre line suf, ls = pre ++ line :: suf ∧ (∀ l ∈ pre, ping_marker l = false) ∧
      ping_marker line = true ∧ summarize_loop ls = pyStrip line) := by
  induction ls with
  | nil => exact Or.inl ⟨by simp, rfl⟩
  | cons a rest ih =>
    cases hm : ping_marker a with
    | true =>
      exact Or.inr ⟨[], a, rest, by simp, by simp, hm, by simp [summarize_loop, hm]⟩
    | false =>
      rcases ih with ⟨hall, hval⟩ | ⟨pre, line, suf, hls, hpre, hline, hval⟩
      · refine Or.inl ⟨?_, by simp [summarize_loop, hm, hval]⟩
        intro l hl
        rcases List.mem_cons.mp hl with rfl | hl
        · exact hm
        · exact hall l hl
      · refine Or.inr ⟨a :: pre, line, suf, by simp [hls], ?_, hline,
          by simp [summarize_loop, hm, hval]⟩
        intro l hl
        rcases List.mem_cons.mp hl with rfl | hl
        · exact hm
        · exact hpre l hl

/-! ## Claims -/

/-- C1, counterexample: a network-unreachable destination is reported by
`connect_ex` as the error indicator `ENETUNREACH`, which `scan_ports`
classifies as `"closed"`, not as an error status — the claim maps it to
Error. -/
theorem c1_counterexample :
    scan_ports (fun _ _ => netUnreachable) "10.255.255.1" [22] = [(22, "closed")] ∧
    port_status netUnreachable = "closed" ∧
    containsStr (port_status netUnreachable) "error" = false := by
  refine ⟨?_, by decide, by decide⟩
  rw [scan_ports_eq]
  decide

/-- C1 (amended): for every port of a scan the classification of the connect
attempt is: `connect_ex` indicator 0 implies status open; any nonzero
indicator — which is how `connect_ex` reports connection refused and also
network unreachable — implies status closed; a raised `socket.timeout`
implies status timeout; any other raised exception implies the error status
carrying the exception detail. -/
theorem c1_classification (conn : String → Nat → ConnectOutcome) (target : String)
    (ports : List Nat) (p : Nat) (hp : p ∈ ports) :
    (p, port_status (conn target p)) ∈ scan_ports conn target ports ∧
    (conn target p = .returned 0 → port_status (conn target p) = "open") ∧
    (∀ c : Int, conn target p = .returned c → c ≠ 0 →
      port_status (conn target p) = "closed") ∧
    (conn target p = .sockTimeout → port_status (conn target p) = "timeout") ∧
    (∀ e : String, conn target p = .raised e →
      port_status (conn target p) = "error (" ++ e ++ ")") := by
  refine ⟨?_, ?_, ?_, ?_, ?_⟩
  · rw [scan_ports_eq]
    exact List.mem_map.mpr ⟨p, hp, rfl⟩
  · intro h; rw [h]; rfl
  · intro c h hc; rw [h]; simp [port_status, hc]
  · intro h; rw [h]; rfl
  · intro e h; rw [h]; rfl

/-- C1, witness: port 22 of the default list scanned against a host refusing
every connection is classified closed. -/
theorem c1_witness :
    (22, "closed") ∈ scan_ports (fun _ _ => ConnectOutcome.returned ECONNREFUSED)
      "127.0.0.1" COMMON_PORTS ∧
    port_status (ConnectOutcome.returned ECONNREFUSED) = "closed" := by
  have h := c1_classification (fun _ _ => ConnectOutcome.returned ECONNREFUSED)
    "127.0.0.1" COMMON_PORTS 22 (by decide)
  exact ⟨h.1, h.2.2.1 ECONNREFUSED rfl (by decide)⟩

/-- C2, counterexample: a resolver call that completes without raising but
yields an empty address list makes `dns_lookup` report success with primary
address `"N/A"`, and that primary is not the first element of the returned
(empty) address list. -/
theorem c2_counterexample :
    dns_lookup (.ok "example.com" [] []) = (true, "N/A", ([] : List String)) ∧
    (dns_lookup (.ok "example.com" [] [])).2.2.head? ≠
      some (dns_lookup (.ok "example.com" [] [])).2.1 := by
  decide

/-- C2 (amended): whenever DNS resolution returns success, the address list
is exactly the ordered list the resolver yielded; when that list is nonempty
the primary address equals its first element, and when it is empty the
lookup still reports success with the sentinel primary `"N/A"`. -/
theorem c2_success_invariant (host : String) (al ips : List String) :
    (dns_lookup (.ok host al ips)).1 = true ∧
    (dns_lookup (.ok host al ips)).2.2 = ips ∧
    (ips ≠ [] → ips.head? = some ((dns_lookup (.ok host al ips)).2.1)) ∧
    (ips = [] → (dns_lookup (.ok host al ips)).2.1 = "N/A") := by
  refine ⟨rfl, rfl, ?_, ?_⟩
  · intro hne
    cases ips with
    | nil => exact absurd rfl hne
    | cons a t => rfl
  · intro h
    subst h
    rfl

/-- C2, witness: a two-address resolution keeps the list verbatim and takes
the first address as primary. -/
theorem c2_witness :
    (dns_lookup (.ok "localhost" [] ["127.0.0.1", "10.0.0.5"])).2.2 =
      ["127.0.0.1", "10.0.0.5"] ∧
    (["127.0.0.1", "10.0.0.5"] : List String).head? =
      some ((dns_lookup (.ok "localhost" [] ["127.0.0.1", "10.0.0.5"])).2.1) := by
  have h := c2_success_invariant "localhost" [] ["127.0.0.1", "10.0.0.5"]
  exact ⟨h.2.1, h.2.2.1 (by decide)⟩

/-- C3: for every nonempty target the run produces a report holding all four
probe results — the DNS outcome, the ping outcome, the traceroute outcome
and the port scan — for every environment, in particular for environments
where DNS resolution or any other probe fails. -/
theorem c3_all_probes_run (env : Env) (src : InputSource) (h : getTarget src ≠ "") :
    ∃ r : Report, main env src = .report r ∧
      (r.dns_ok, r.primary_ip, r.details) = dns_lookup (env.resolve (getTarget src)) ∧
      (r.ping_ok, r.ping_out) = ping_host env (getTarget src) ∧
      (r.trace_ok, r.trace_out) = traceroute_host env (getTarget src) ∧
      r.ports_result = scan_ports env.conn
        (if r.dns_ok then r.primary_ip else getTarget src) COMMON_PORTS := by
  simp only [main]
  rw [if_neg h]
  exact ⟨_, rfl, rfl, rfl, rfl, rfl⟩

/-- C3, witness: in an environment where DNS, ping and traceroute all fail,
the report still carries all four probe results. -/
theorem c3_witness :
    ∃ r : Report, main envW (.argv "example.com") = .report r ∧
      (r.dns_ok, r.primary_ip, r.details) = dns_lookup (envW.resolve "example.com") ∧
      (r.ping_ok, r.ping_out) = ping_host envW "example.com" ∧
      (r.trace_ok, r.trace_out) = traceroute_host envW "example.com" ∧
      r.ports_result = scan_ports envW.conn
        (if r.dns_ok then r.primary_ip else "example.com") COMMON_PORTS := by
  exact c3_all_probes_run envW (.argv "example.com") (by decide)

/-- C4: `run_command` is total over launch outcomes — a normal completion
returns the child exit code with stdout and stderr concatenated in that
order and stripped, and every raised exception (launch failure or timeout)
becomes exit code 1 with a nonempty explanatory message. -/
theorem c4_run_command_total (cmd : List String) (o : SubprocessOutcome) :
    (∀ rc : Int, ∀ out err : String, o = .completed rc out err →
      run_command cmd o = (rc, pyStrip (out ++ err))) ∧
    (∀ e : String, o = .raised e →
      (run_command cmd o).1 = 1 ∧ (run_command cmd o).2 ≠ "") := by
  constructor
  · intro rc out err h
    rw [h]
    rfl
  · intro e h
    rw [h]
    exact ⟨rfl, errMsg_ne_empty cmd e⟩

/-- C4, witness: a nonexistent executable gives exit code 1 and nonempty
text. -/
theorem c4_witness :
    (run_command ["definitely-missing-tool"] (.raised "No such file or directory")).1 = 1 ∧
    (run_command ["definitely-missing-tool"] (.raised "No such file or directory")).2 ≠ "" := by
  exact (c4_run_command_total ["definitely-missing-tool"]
    (.raised "No such file or directory")).2 "No such file or directory" rfl

/-- C5: the port scan runs against the resolved primary address when DNS
resolution succeeded and against the original input string otherwise, while
ping and traceroute always run against the original input string. -/
theorem c5_target_selection (env : Env) (src : InputSource) (h : getTarget src ≠ "") :
    ∃ r : Report, main env src = .report r ∧
      r.ports_result = scan_ports env.conn
        (if (dns_lookup (env.resolve (getTarget src))).1
         then (dns_lookup (env.resolve (getTarget src))).2.1
         else getTarget src) COMMON_PORTS ∧
      (r.ping_ok, r.ping_out) = ping_host env (getTarget src) ∧
      (r.trace_ok, r.trace_out) = traceroute_host env (getTarget src) := by
  simp only [main]
  rw [if_neg h]
  exact ⟨_, rfl, rfl, rfl, rfl⟩

/-- C5, witness: with a successful resolution the scan target is the primary
address, and ping and traceroute are invoked on the original string. -/
theorem c5_witness :
    ∃ r : Report, main envW2 (.argv "example.org") = .report r ∧
      r.ports_result = scan_ports envW2.conn
        (if (dns_lookup (envW2.resolve "example.org")).1
         then (dns_lookup (envW2.resolve "example.org")).2.1
         else "example.org") COMMON_PORTS ∧
      (r.ping_ok, r.ping_out) = ping_host envW2 "example.org" ∧
      (r.trace_ok, r.trace_out) = traceroute_host envW2 "example.org" := by
  exact c5_target_selection envW2 (.argv "example.org") (by decide)

/-- C6: the port scan yields exactly one result per requested port, in
request order, and the scan of a port is unaffected by the outcomes of the
ports before it (scanning a concatenation equals concatenating the scans,
and each position depends only on its own port). -/
theorem c6_scan_order (conn : String → Nat → ConnectOutcome) (target : String)
    (ports : List Nat) :
    (scan_ports conn target ports).map Prod.fst = ports ∧
    (scan_ports conn target ports).length = ports.length ∧
    (∀ ps1 ps2 : List Nat, scan_ports conn target (ps1 ++ ps2) =
      scan_ports conn target ps1 ++ scan_ports conn target ps2) ∧
    (∀ i : Nat, (scan_ports conn target ports)[i]? =
      (ports[i]?).map (fun p => (p, port_status (conn target p)))) := by
  refine ⟨?_, ?_, ?_, ?_⟩
  · simp [scan_ports_eq, List.map_map, Function.comp_def]
  · simp [scan_ports_eq]
  · intro ps1 ps2
    simp [scan_ports_eq]
  · intro i
    simp [scan_ports_eq, List.getElem?_map]

/-- C7, counterexample: a line containing `"Statistics"` with a capital
letter does contain the marker case-insensitively, yet `summarize_ping`
returns the fixed fallback instead of that line, because the code matches
`"statistics"` by exact substring search. -/
theorem c7_counterexample :
    containsStr (pyLower "Ping Statistics for 10.0.0.1") "statistics" = true ∧
    summarize_ping "Ping Statistics for 10.0.0.1" = "See raw output." := by
  decide

/-- C7 (amended): `summarize_ping` scans the lines of the output in reverse
order and returns the stripped first line matching a marker — the markers
being a case-insensitive `"loss"`, the exact text `"Packets:"`, or the exact
lowercase text `"statistics"` — and returns the fixed fallback
`"See raw output."` when no line matches (or when the matched line strips to
the empty string). -/
theorem c7_summary_extraction (output : String) :
    ((∀ l ∈ splitlines output, ping_marker l = false) ∧
      summarize_ping output = "See raw output.") ∨
    (∃ pre line suf, splitlines output = pre ++ line :: suf ∧
      ping_marker line = true ∧ (∀ l ∈ suf, ping_marker l = false) ∧
      summarize_ping output =
        (if pyStrip line = "" then "See raw output." else pyStrip line)) := by
  rcases summarize_loop_spec (splitlines output).reverse with
    ⟨hall, hval⟩ | ⟨pre, line, suf, hls, hpre, hline, hval⟩
  · refine Or.inl ⟨?_, ?_⟩
    · intro l hl
      exact hall l (List.mem_reverse.mpr hl)
    · simp [summarize_ping, hval]
  · refine Or.inr ⟨suf.reverse, line, pre.reverse, ?_, hline, ?_, ?_⟩
    · have h2 := congrArg List.reverse hls
      simpa [List.reverse_append] using h2
    · intro l hl
      exact hpre l (List.mem_reverse.mp hl)
    · simp [summarize_ping, hval]

/-- C8: the run exits nonzero exactly when the computed target is empty, in
which case it aborts with status 1 before any probe; every nonempty target
produces a full report and exit status 0 whatever the probes do. -/
theorem c8_exit_status (env : Env) (src : InputSource) :
    (getTarget src = "" → main env src = .usageError 1) ∧
    (getTarget src ≠ "" →
      (∃ r : Report, main env src = .report r) ∧ exitCode (main env src) = 0) ∧
    (exitCode (main env src) ≠ 0 ↔ getTarget src = "") := by
  by_cases h : getTarget src = ""
  · have hm : main env src = .usageError 1 := by
      simp only [main]
      rw [if_pos h]
    refine ⟨fun _ => hm, fun hne => absurd h hne, ?_⟩
    rw [hm]
    simp [exitCode, h]
  · have hm : ∃ r : Report, main env src = .report r := by
      simp only [main]
      rw [if_neg h]
      exact ⟨_, rfl⟩
    rcases hm with ⟨r, hr⟩
    refine ⟨fun he => absurd he h, fun _ => ⟨⟨r, hr⟩, ?_⟩, ?_⟩
    · rw [hr]
      rfl
    · rw [hr]
      simp [exitCode, h]

/-- C8, witness: the empty argv target aborts with status 1; a nonempty
target in a fully failing environment still exits with status 0. -/
theorem c8_witness :
    main envW (.argv "") = .usageError 1 ∧
    exitCode (main envW (.argv "a.test")) = 0 := by
  have h1 := (c8_exit_status envW (.argv "")).1 rfl
  have h2 := (c8_exit_status envW (.argv "a.test")).2.1 (by decide)
  exact ⟨h1, h2.2⟩

/-- C9: when resolution fails, `dns_lookup` returns the literal `"N/A"` as
primary address and a one-element list holding only the exception text in
the address-list position — the same list shape a genuine one-address
resolution produces, so the list alone cannot distinguish the two. -/
theorem c9_failure_shape (e host al : String) :
    dns_lookup (.exc e) = (false, "N/A", [e]) ∧
    (dns_lookup (.exc e)).2.2.length = 1 ∧
    (dns_lookup (.ok host [al] [e])).1 = true ∧
    (dns_lookup (.ok host [al] [e])).2.2 = (dns_lookup (.exc e)).2.2 := by
  exact ⟨rfl, rfl, rfl, rfl⟩

/-- C10: an argv target is used verbatim, so a whitespace-only argv argument
is accepted and probed with the whitespace kept in the target, whereas an
interactively entered line is stripped before the emptiness check, so a
whitespace-only interactive line aborts with status 1. -/
theorem c10_whitespace_handling (env : Env) (s : String) (h1 : s ≠ "")
    (h2 : pyStrip s = "") :
    (∃ r : Report, main env (.argv s) = .report r ∧ r.target = s) ∧
    main env (.interactive s) = .usageError 1 := by
  constructor
  · have hne : getTarget (.argv s) ≠ "" := h1
    simp only [main]
    rw [if_neg hne]
    exact ⟨_, rfl, rfl⟩
  · have he : getTarget (.interactive s) = "" := h2
    simp only [main]
    rw [if_pos he]

/-- C10, witness: the single-space target is probed when passed as argv and
rejected when entered interactively. -/
theorem c10_witness :
    (∃ r : Report, main envW (.argv " ") = .report r ∧ r.target = " ") ∧
    main envW (.interactive " ") = .usageError 1 := by
  exact c10_whitespace_handling envW " " (by decide) (by decide)

end CLI
